import Mathlib

/-!
Verification development for the DL-MAKER repository: a Flask service serving
synthetic driver's-license records pulled from a spreadsheet source, with an
in-memory TTL cache, a filter engine, a status classifier, a stats aggregator
and a PDF417 barcode endpoint.

The definitions below are a shallow embedding of the Python source:
  - `src/server.py`: `get_license_data` (cache), `apply_filters`,
    `check_license_status`, the stats aggregation loop of `get_stats`,
    the `/api/pdf417` handler `generate_pdf417`, the `/api/refresh` handler
    `refresh_data`.
  - `src/google_sheets.py`: `GoogleSheetsConnector.get_license_data`
    (row-to-record mapping).

Dates are modelled proleptic-Gregorian, exactly as Python's `datetime.date`;
`datetime.strptime(s, "%Y-%m-%d")` is modelled by `parseDate` (four-digit
year, one-or-two-digit month and day, ASCII digits, literal dashes, whole
string consumed, calendar validity enforced as Python's date constructor
does).  External I/O (the Sheets API call, the fallback-file read, the
barcode raster library) is modelled by oracle fields of an environment
record.  String helpers are written as structural recursion over the
character list so that concrete instances evaluate inside the kernel.
-/

/-- Split a character list at every dash, as Python's `s.split('-')` /
the literal-dash steps of `strptime`: splitting the empty string yields one
empty component. -/
def splitOnDash (cs : List Char) : List (List Char) :=
  match cs with
  | [] => [[]]
  | c :: rest =>
    match splitOnDash rest, decide (c = '-') with
    | r, true => [] :: r
    | [], false => [[c]]
    | h :: t, false => (c :: h) :: t

/-- Substring test, as Python's `needle in hay`. -/
def containsSub (hay needle : List Char) : Bool :=
  match hay with
  | [] => needle.isEmpty
  | _ :: t => needle.isPrefixOf hay || containsSub t needle

/-- Case-insensitive helpers, as Python's `str.lower` / `str.upper` on the
ASCII data this program handles. -/
def lowerStr (s : String) : String := ⟨s.data.map Char.toLower⟩

/-- See `lowerStr`. -/
def upperStr (s : String) : String := ⟨s.data.map Char.toUpper⟩

/-- Substring test on strings: Python's `needle in hay`. -/
def strContains (hay needle : String) : Bool :=
  containsSub hay.data needle.data

/-- Numeric value of a digit list, as Python's `int` on a digit string. -/
def digitsVal (cs : List Char) : Nat :=
  cs.foldl (fun a c => a * 10 + (c.toNat - 48)) 0

/-- Nonempty all-digit string, as Python's `str.isdigit()` on the ASCII
values this program handles. -/
def isAsciiDigits (s : String) : Bool :=
  !s.data.isEmpty && s.data.all Char.isDigit

/-- A calendar date, as Python's `datetime.date` (proleptic Gregorian). -/
structure Date where
  year : Nat
  month : Nat
  day : Nat
deriving Repr, DecidableEq

/-- Gregorian leap-year test, as Python's `calendar.isleap`. -/
def isLeap (y : Nat) : Bool :=
  y % 4 == 0 && (y % 100 != 0 || y % 400 == 0)

/-- Number of days in month `m` of year `y` (months are 1-based). -/
def daysInMonth (y m : Nat) : Nat :=
  if m = 2 then (if isLeap y then 29 else 28)
  else if m = 4 ∨ m = 6 ∨ m = 9 ∨ m = 11 then 30
  else 31

/-- Days in year `y` strictly before month `m`. -/
def daysBeforeMonth (y m : Nat) : Nat :=
  (List.range (m - 1)).foldl (fun acc i => acc + daysInMonth y (i + 1)) 0

/-- Leap days occurring in years `1 .. y-1`. -/
def leapsBefore (y : Nat) : Nat :=
  (y - 1) / 4 - (y - 1) / 100 + (y - 1) / 400

/-- Day number of a date, with 0001-01-01 mapped to 0.  This is Python's
`date.toordinal()` shifted by one; differences of two `toOrdinal` values
coincide with Python's `(d1 - d2).days`. -/
def toOrdinal (d : Date) : Nat :=
  365 * (d.year - 1) + leapsBefore d.year + daysBeforeMonth d.year d.month + (d.day - 1)

/-- Signed whole-day difference `exp - today`, as Python's
`(exp_date - today).days`. -/
def daysUntil (expDate today : Date) : Int :=
  (toOrdinal expDate : Int) - (toOrdinal today : Int)

/-- Model of `datetime.strptime(s, "%Y-%m-%d").date()`: %Y takes exactly four
digits, %m and %d one or two, the literal dashes must appear, nothing may
remain unconsumed, and the resulting (year, month, day) must be a valid
`datetime.date` (year at least 1, day within the month's length). -/
def parseDate (s : String) : Option Date :=
  match splitOnDash s.data with
  | [ys, ms, ds] =>
    if ys.length = 4 ∧ ys.all Char.isDigit
        ∧ (ms.length = 1 ∨ ms.length = 2) ∧ ms.all Char.isDigit
        ∧ (ds.length = 1 ∨ ds.length = 2) ∧ ds.all Char.isDigit then
      let y := digitsVal ys
      let m := digitsVal ms
      let d := digitsVal ds
      if 1 ≤ y ∧ 1 ≤ m ∧ m ≤ 12 ∧ 1 ≤ d ∧ d ≤ daysInMonth y m then
        some ⟨y, m, d⟩
      else none
    else none
  | _ => none

/-- One driver's-license record, the dictionary shape produced by
`GoogleSheetsConnector.get_license_data` in `src/google_sheets.py`
(the fields every record of this program carries). -/
structure Record where
  id : Nat
  firstName : String
  lastName : String
  middleInitial : String
  dateOfBirth : String
  state : String
  licenseNumber : String
  city : String
  street : String
  zipCode : String
  height : String
  weight : Nat
  eyeColor : String
  hairColor : String
  expiration : String
  licenseClass : String
  restrictions : String
  organDonor : Bool
deriving Repr, DecidableEq

/-- A record differing from this default only in `state` and `expiration`;
used to build concrete instances. -/
def mkRecord (state expiration : String) : Record :=
  { id := 1, firstName := "", lastName := "", middleInitial := ""
    dateOfBirth := "", state := state, licenseNumber := ""
    city := "", street := "", zipCode := "", height := "", weight := 0
    eyeColor := "", hairColor := "", expiration := expiration
    licenseClass := "", restrictions := "", organDonor := false }

/-- `check_license_status` from `src/server.py` (lines 274-293): empty
expiration fails, an unparseable expiration fails (the bare `except`), and
otherwise the status string selects a whole-day-difference test; any other
status string passes the record through (`else: return True`). -/
def check_license_status (license_data : Record) (status : String) (today : Date) : Bool :=
  let exp_date_str := license_data.expiration
  if exp_date_str = "" then false
  else
    match parseDate exp_date_str with
    | none => false
    | some exp_date =>
      let days_until : Int := daysUntil exp_date today
      if status = "valid" then decide (days_until > 30)
      else if status = "expiring" then decide (0 ≤ days_until ∧ days_until ≤ 30)
      else if status = "expired" then decide (days_until < 0)
      else true

/-- Filter parameters of `/api/licenses` (`src/server.py` `apply_filters`):
the three query keys the code reads, `none` when the key is absent from the
request.  In Flask, `filters.get(key, '')` yields the empty string for an
absent key, so `none` and `some ""` behave alike downstream. -/
structure Filters where
  search : Option String
  state : Option String
  status : Option String
deriving Repr, DecidableEq

/-- `apply_filters` from `src/server.py` (lines 237-272).  `today` is the
`datetime.now().date()` the status branch reads.  The leading
`if not filters: return data` tests request-dictionary emptiness; within this
model of the three recognized keys, an empty dictionary is one with all three
absent (either way an all-absent dictionary returns `data` unchanged, since
each branch is guarded by truthiness of the corresponding value). -/
def apply_filters (data : List Record) (filters : Filters) (today : Date) : List Record :=
  if filters.search = none ∧ filters.state = none ∧ filters.status = none then data
  else
    let search_term := lowerStr (filters.search.getD "")
    let d1 :=
      if search_term ≠ "" then
        data.filter (fun item =>
          strContains (lowerStr item.firstName) search_term ||
          strContains (lowerStr item.lastName) search_term ||
          strContains (lowerStr item.licenseNumber) search_term)
      else data
    let state_filter := filters.state.getD ""
    let d2 :=
      if state_filter ≠ "" then
        d1.filter (fun item => upperStr item.state == upperStr state_filter)
      else d1
    let status_filter := filters.status.getD ""
    let d3 :=
      if status_filter ≠ "" then
        d2.filter (fun item => check_license_status item status_filter today)
      else d2
    d3

namespace GoogleSheetsConnector

/-- Row-to-record mapping of `GoogleSheetsConnector.get_license_data`
(`src/google_sheets.py` lines 113-135): positional columns with defaults for
short rows, `weight` through the guarded `int(...)`, identifier `i + 1` from
the row's position `i` among the data rows, and the three never-populated
fields. -/
def mapRow (i : Nat) (row : List String) : Record :=
  { id := i + 1
    firstName := row.getD 1 ""
    lastName := row.getD 2 ""
    middleInitial := row.getD 3 ""
    dateOfBirth := row.getD 4 ""
    state := row.getD 5 ""
    licenseNumber := row.getD 6 ""
    city := row.getD 7 ""
    street := row.getD 8 ""
    zipCode := row.getD 9 ""
    height := row.getD 10 ""
    weight := if 11 < row.length ∧ isAsciiDigits (row.getD 11 "") then digitsVal (row.getD 11 "").data else 0
    eyeColor := row.getD 12 ""
    hairColor := row.getD 13 ""
    expiration := row.getD 14 ""
    licenseClass := ""
    restrictions := ""
    organDonor := false }

/-- `GoogleSheetsConnector.get_license_data` of `src/google_sheets.py`
(lines 89-144), applied to the raw row list the Sheets fetch returned: empty
raw data yields no records, the first row is discarded as the header, empty
rows are skipped (`if not row: continue`) while still advancing the
enumeration index `i`, and every other row is mapped by `mapRow`.  The
per-row `try`/`except` is dead for string-valued rows (every index access and
the `int` conversion are guarded), so the mapping is total here. -/
def get_license_data (raw_data : List (List String)) : List Record :=
  match raw_data with
  | [] => []
  | _headers :: data_rows =>
    data_rows.enum.filterMap fun p =>
      if p.2.isEmpty then none else some (mapRow p.1 p.2)

end GoogleSheetsConnector

/-- The module-level cache globals of `src/server.py`: `cached_data` and
`cache_timestamp`.  The timestamp is in seconds (an `Int`, standing for the
`datetime` the code stores; only differences of timestamps are read). -/
structure CacheState where
  cached_data : Option (List Record)
  cache_timestamp : Option Int
deriving Repr, DecidableEq

/-- Environment of one `get_license_data` call in `src/server.py`: the clock,
the configuration, and oracles for the two I/O actions.
`sheets_configured` is the guard `sheets_connector and
CONFIG["GOOGLE_SHEET_ID"] != "YOUR_SHEET_ID_HERE"`; `fetch_result` is what
`sheets_connector.get_license_data` would produce (`none` standing for a
raised exception); `sample_data` is the parsed content of
`sample_data.json` (`none` standing for a failed open/parse). -/
structure Env where
  now : Int
  cache_timeout : Int
  sheets_configured : Bool
  fetch_result : Option (List Record)
  sample_data : Option (List Record)
deriving Repr, DecidableEq

/-- Result of one `get_license_data` call: the returned record list, the
cache globals after the call, whether the Sheets fetch was attempted, and
whether any I/O at all (Sheets fetch or fallback-file read) occurred. -/
structure GetResult where
  result : List Record
  state : CacheState
  fetchAttempted : Bool
  ioOccurred : Bool
deriving Repr, DecidableEq

/-- The cache-validity test of `src/server.py` lines 72-76: Python truthiness
of `cached_data` makes an empty cached list fail the test, and the elapsed
time must be strictly below the timeout. -/
def cacheFresh (env : Env) (st : CacheState) : Bool :=
  match st.cached_data, st.cache_timestamp with
  | some l, some ts => !l.isEmpty && decide (env.now - ts < env.cache_timeout)
  | _, _ => false

/-- The fallback branch of `get_license_data` (`src/server.py` lines 89-96):
read `sample_data.json`, store it with a fresh timestamp and return it; if
that fails, return `[]` leaving the globals untouched.  `fetched` records
whether the Sheets fetch was attempted on the way here. -/
def fallbackLoad (env : Env) (st : CacheState) (fetched : Bool) : GetResult :=
  match env.sample_data with
  | some d => ⟨d, ⟨some d, some env.now⟩, fetched, true⟩
  | none => ⟨[], st, fetched, true⟩

/-- `get_license_data` from `src/server.py` (lines 67-96).  With
`force_refresh` false and a fresh non-empty cache entry, serve the cache with
no I/O.  Otherwise, when the connector is configured, attempt the Sheets
fetch: a non-empty result is stored and returned; an empty result or an
exception falls through to the fallback.  When the connector is not
configured the fallback runs directly. -/
def get_license_data (env : Env) (force_refresh : Bool) (st : CacheState) : GetResult :=
  if !force_refresh && cacheFresh env st then
    ⟨st.cached_data.getD [], st, false, false⟩
  else if env.sheets_configured then
    match env.fetch_result with
    | some licenses =>
      if licenses.isEmpty then fallbackLoad env st true
      else ⟨licenses, ⟨some licenses, some env.now⟩, true, true⟩
    | none => fallbackLoad env st true
  else fallbackLoad env st false

/-- The `/api/refresh` handler `refresh_data` of `src/server.py` (lines
162-183): it clears both cache globals and then calls
`get_license_data(force_refresh=True)`; the previous cache state `_st` is
discarded. -/
def refresh_data (env : Env) (_st : CacheState) : GetResult :=
  get_license_data env true ⟨none, none⟩

/-- One step of the `by_state` aggregation in `get_stats` (`src/server.py`
line 205): `stats["by_state"][state] = stats["by_state"].get(state, 0) + 1`
on an insertion-ordered dictionary, modelled as an association list whose
keys are unique by construction: bump the existing key or append a new one. -/
def bumpState (m : List (String × Nat)) (s : String) : List (String × Nat) :=
  match m with
  | [] => [(s, 1)]
  | (k, v) :: rest => if k = s then (k, v + 1) :: rest else (k, v) :: bumpState rest s

/-- The `by_state` mapping computed by the loop of `get_stats`
(`src/server.py` lines 202-205): every record contributes its `state` field
once.  (The code's `license_data.get('state', 'Unknown')` is `r.state` here,
the key the adapter always populates.) -/
def by_state (data : List Record) : List (String × Nat) :=
  data.foldl (fun m r => bumpState m r.state) []

/-- Sum of the counts of a state-count mapping. -/
def sumCounts (m : List (String × Nat)) : Nat :=
  (m.map Prod.snd).sum

/-- Shape of a `/api/pdf417` response: HTTP status, the JSON envelope fields
the handler writes, and whether `pdf417_encode` was reached. -/
structure ApiResponse where
  status : Nat
  success : Bool
  error : Option String
  barcode : Option String
  encodeCalled : Bool
deriving Repr, DecidableEq

/-- The `/api/pdf417` handler `generate_pdf417` of `src/server.py` (lines
295-355).  `dataParam` is `request.args.get('data', '')` (`none` for an
absent key); `available` is `PDF417_AVAILABLE`; `encodeImage` abstracts the
encode-and-rasterize pipeline (the external `pdf417` and PIL libraries),
producing the base64 PNG payload.  Missing or empty data is rejected with
400 before any encoding; an unavailable library is rejected with 500. -/
def generate_pdf417 (dataParam : Option String) (available : Bool)
    (encodeImage : String → String) : ApiResponse :=
  let data := dataParam.getD ""
  if data = "" then ⟨400, false, some "No data provided", none, false⟩
  else if !available then ⟨500, false, some "PDF417 library not available", none, false⟩
  else ⟨200, true, none, some ("data:image/png;base64," ++ encodeImage data), true⟩

example : parseDate "2025-06-15" = some ⟨2025, 6, 15⟩ := by decide
example : parseDate "" = none := by decide
example : parseDate "2025-13-01" = none := by decide
example : parseDate "2025-02-29" = none := by decide
example : parseDate "2024-02-29" = some ⟨2024, 2, 29⟩ := by decide
example : daysUntil ⟨2025, 3, 1⟩ ⟨2025, 2, 1⟩ = 28 := by decide
example : check_license_status (mkRecord "CA" "2025-07-01") "expiring" ⟨2025, 6, 15⟩ = true := by decide
example : check_license_status (mkRecord "CA" "2025-07-16") "valid" ⟨2025, 6, 15⟩ = true := by decide
example : check_license_status (mkRecord "CA" "bogus") "expired" ⟨2025, 6, 15⟩ = false := by decide
example : (GoogleSheetsConnector.get_license_data [["#", "First"], ["1", "Ann", "Lee"], ["2", "Bo", "Ng"]]).map Record.id = [1, 2] := by decide
example : (GoogleSheetsConnector.get_license_data [["#", "First"], [], ["2", "Bo", "Ng"]]).map Record.id = [2] := by decide
example : strContains "hello world" "lo w" = true := by decide
example : strContains "hello" "xyz" = false := by decide

/-! ### Shared lemmas -/

theorem parseDate_empty : parseDate "" = none := rfl

/-- With a parseable expiration, `check_license_status` reduces to the status
dispatch on the whole-day difference. -/
theorem check_license_status_of_parse (r : Record) (exp today : Date)
    (hp : parseDate r.expiration = some exp) (status : String) :
    check_license_status r status today =
      (if status = "valid" then decide (daysUntil exp today > 30)
       else if status = "expiring" then decide (0 ≤ daysUntil exp today ∧ daysUntil exp today ≤ 30)
       else if status = "expired" then decide (daysUntil exp today < 0)
       else true) := by
  have hne : r.expiration ≠ "" := by
    intro h
    rw [h, parseDate_empty] at hp
    exact Option.noConfusion hp
  unfold check_license_status
  rw [if_neg hne, hp]

/-- With an empty or unparseable expiration, `check_license_status` is false
for every status string. -/
theorem check_license_status_of_unparseable (r : Record) (status : String) (today : Date)
    (h : r.expiration = "" ∨ parseDate r.expiration = none) :
    check_license_status r status today = false := by
  unfold check_license_status
  by_cases he : r.expiration = ""
  · rw [if_pos he]
  · rw [if_neg he]
    rcases h with h | h
    · exact absurd h he
    · rw [h]

/-! ### Claim C1 -/

/-- Claim C1: for every record with a parseable expiration date and every
date `today`, the status classifier yields exactly: expired when the
whole-day difference is negative, expiring when it is between 0 and 30
inclusive, valid when it is greater than 30; in particular a difference of
30 days classifies as expiring, 31 days as valid, and minus one day as
expired. -/
theorem C1_classifier_boundaries (r : Record) (exp today : Date)
    (hp : parseDate r.expiration = some exp) :
    (check_license_status r "expired" today = true ↔ daysUntil exp today < 0) ∧
    (check_license_status r "expiring" today = true ↔
      0 ≤ daysUntil exp today ∧ daysUntil exp today ≤ 30) ∧
    (check_license_status r "valid" today = true ↔ 30 < daysUntil exp today) ∧
    ((toOrdinal exp : Int) = (toOrdinal today : Int) + 30 →
      check_license_status r "expiring" today = true) ∧
    ((toOrdinal exp : Int) = (toOrdinal today : Int) + 31 →
      check_license_status r "valid" today = true) ∧
    ((toOrdinal exp : Int) = (toOrdinal today : Int) - 1 →
      check_license_status r "expired" today = true) := by
  have key := check_license_status_of_parse r exp today hp
  have hexpired : check_license_status r "expired" today = decide (daysUntil exp today < 0) := by
    rw [key "expired"]; rfl
  have hexpiring : check_license_status r "expiring" today =
      decide (0 ≤ daysUntil exp today ∧ daysUntil exp today ≤ 30) := by
    rw [key "expiring"]; rfl
  have hvalid : check_license_status r "valid" today = decide (daysUntil exp today > 30) := by
    rw [key "valid"]; rfl
  refine ⟨?_, ?_, ?_, ?_, ?_, ?_⟩
  · rw [hexpired]; exact decide_eq_true_iff
  · rw [hexpiring]; exact decide_eq_true_iff
  · rw [hvalid]; exact decide_eq_true_iff
  · intro h
    rw [hexpiring, decide_eq_true_iff]
    unfold daysUntil
    omega
  · intro h
    rw [hvalid, decide_eq_true_iff]
    unfold daysUntil
    omega
  · intro h
    rw [hexpired, decide_eq_true_iff]
    unfold daysUntil
    omega

/-- Witness for C1 at a concrete boundary input: expiration 2025-07-01 is 30
days after 2025-06-01 and classifies as expiring. -/
theorem C1_classifier_boundaries_witness :
    check_license_status (mkRecord "CA" "2025-07-01") "expiring" ⟨2025, 6, 1⟩ = true :=
  (C1_classifier_boundaries (mkRecord "CA" "2025-07-01") ⟨2025, 7, 1⟩ ⟨2025, 6, 1⟩
    (by decide)).2.2.2.1 (by decide)

/-! ### Claim C7 -/

/-- Claim C7: a record whose expiration field is empty or fails to parse as
a YYYY-MM-DD calendar date matches no status filter value, and is excluded
from every status-filtered result. -/
theorem C7_unparseable_excluded (r : Record) (status : String) (today : Date)
    (h : r.expiration = "" ∨ parseDate r.expiration = none) :
    check_license_status r status today = false ∧
    (status ≠ "" → ∀ data : List Record,
      r ∉ apply_filters data ⟨none, none, some status⟩ today) := by
  have hfalse := check_license_status_of_unparseable r status today h
  refine ⟨hfalse, ?_⟩
  intro hs data
  unfold apply_filters
  rw [if_neg (by simp)]
  simp only [Option.getD_some, Option.getD_none]
  rw [if_neg (by decide : ¬(lowerStr "" ≠ ""))]
  rw [if_neg (by decide : ¬(("" : String) ≠ ""))]
  rw [if_pos hs]
  intro hmem
  have := (List.mem_filter.mp hmem).2
  rw [hfalse] at this
  exact Bool.noConfusion this

/-- Witness for C7: a record with unparseable expiration is excluded by the
expired filter. -/
theorem C7_unparseable_excluded_witness :
    check_license_status (mkRecord "CA" "unknown") "expired" ⟨2025, 6, 1⟩ = false ∧
    (mkRecord "CA" "unknown") ∉
      apply_filters [mkRecord "CA" "unknown"] ⟨none, none, some "expired"⟩ ⟨2025, 6, 1⟩ :=
  ⟨(C7_unparseable_excluded (mkRecord "CA" "unknown") "expired" ⟨2025, 6, 1⟩
      (Or.inr (by decide))).1,
   (C7_unparseable_excluded (mkRecord "CA" "unknown") "expired" ⟨2025, 6, 1⟩
      (Or.inr (by decide))).2 (by decide) [mkRecord "CA" "unknown"]⟩

/-! ### Claim C10 -/

/-- Claim C10: a status filter value outside valid/expiring/expired passes
through every record with a parseable expiration date (the final
`else: return True`), while records with an empty or unparseable expiration
are still excluded. -/
theorem C10_unknown_status_passthrough (r : Record) (s : String) (today : Date) (exp : Date)
    (hp : parseDate r.expiration = some exp)
    (hs : ¬(s = "valid" ∨ s = "expiring" ∨ s = "expired")) :
    check_license_status r s today = true ∧
    (∀ r2 : Record, r2.expiration = "" ∨ parseDate r2.expiration = none →
      check_license_status r2 s today = false) := by
  push_neg at hs
  obtain ⟨h1, h2, h3⟩ := hs
  refine ⟨?_, fun r2 h => check_license_status_of_unparseable r2 s today h⟩
  rw [check_license_status_of_parse r exp today hp s, if_neg h1, if_neg h2, if_neg h3]

/-- Witness for C10 at status string "anything". -/
theorem C10_unknown_status_passthrough_witness :
    check_license_status (mkRecord "CA" "2025-07-01") "anything" ⟨2025, 6, 1⟩ = true :=
  (C10_unknown_status_passthrough (mkRecord "CA" "2025-07-01") "anything" ⟨2025, 6, 1⟩
    ⟨2025, 7, 1⟩ (by decide) (by decide)).1

/-! ### Claim C9 -/

/-- Claim C9: a `/api/pdf417` request with a missing or empty `data`
parameter is rejected with HTTP 400 and the body
`{success: false, error: "No data provided"}`, before any encoding is
attempted. -/
theorem C9_pdf417_no_data (dataParam : Option String) (available : Bool)
    (encodeImage : String → String)
    (h : dataParam = none ∨ dataParam = some "") :
    generate_pdf417 dataParam available encodeImage =
      ⟨400, false, some "No data provided", none, false⟩ := by
  rcases h with h | h <;> subst h <;> rfl

/-- Witness for C9 with the parameter absent. -/
theorem C9_pdf417_no_data_witness :
    generate_pdf417 none true (fun _ => "") =
      ⟨400, false, some "No data provided", none, false⟩ :=
  C9_pdf417_no_data none true (fun _ => "") (Or.inl rfl)

/-! ### Claim C5 -/

/-- Claim C5: filtering with no filter parameters set returns the input
record set itself, and filtering never reorders the surviving records: the
output is always a sublist (order-preserving selection) of the input. -/
theorem C5_filter_identity_and_order (data : List Record) (f : Filters) (today : Date) :
    apply_filters data ⟨none, none, none⟩ today = data ∧
    List.Sublist (apply_filters data f today) data := by
  constructor
  · rfl
  · unfold apply_filters
    split
    · exact List.Sublist.refl data
    · have step : ∀ (l : List Record) (c : Prop) [Decidable c] (p : Record → Bool),
          List.Sublist (if c then l.filter p else l) l := by
        intro l c _ p
        split
        · exact List.filter_sublist l
        · exact List.Sublist.refl l
      exact ((step _ _ _).trans (step _ _ _)).trans (step _ _ _)

/-! ### Claim C6 -/

/-- Counterexample to claim C6 as stated: with the state parameter set to
the empty string, the state filter is skipped entirely (Python truthiness of
`state_filter`), so a record whose state does not match the parameter is
still returned. -/
theorem C6_state_filter_cex :
    apply_filters [mkRecord "CA" "2030-01-01"] ⟨none, some "", none⟩ ⟨2025, 1, 1⟩
        = [mkRecord "CA" "2030-01-01"] ∧
    upperStr (mkRecord "CA" "2030-01-01").state ≠ upperStr "" := by
  constructor
  · rfl
  · decide

/-- Claim C6 amended: for every record set and every NON-EMPTY state
parameter `s`, filtering on state returns exactly the records whose state
code equals `s` case-insensitively (the empty state parameter is treated as
"no filter" and returns everything). -/
theorem C6_state_filter (data : List Record) (s : String) (today : Date)
    (hs : s ≠ "") :
    apply_filters data ⟨none, some s, none⟩ today =
      data.filter (fun r => upperStr r.state == upperStr s) ∧
    (∀ r : Record, r ∈ apply_filters data ⟨none, some s, none⟩ today ↔
      r ∈ data ∧ upperStr r.state = upperStr s) := by
  have heq : apply_filters data ⟨none, some s, none⟩ today =
      data.filter (fun r => upperStr r.state == upperStr s) := by
    unfold apply_filters
    rw [if_neg (by simp)]
    simp only [Option.getD_some, Option.getD_none]
    rw [if_neg (by decide : ¬(lowerStr "" ≠ "")), if_pos hs,
      if_neg (by decide : ¬(("" : String) ≠ ""))]
  refine ⟨heq, fun r => ?_⟩
  rw [heq, List.mem_filter]
  exact and_congr_right fun _ => beq_iff_eq

/-- Witness for the amended C6 at a concrete data set and the lowercase
parameter "ca": only the CA record survives. -/
theorem C6_state_filter_witness :
    apply_filters [mkRecord "CA" "2030-01-01", mkRecord "NY" "2030-01-01"]
        ⟨none, some "ca", none⟩ ⟨2025, 1, 1⟩ =
      List.filter (fun r => upperStr r.state == upperStr "ca")
        [mkRecord "CA" "2030-01-01", mkRecord "NY" "2030-01-01"] :=
  (C6_state_filter [mkRecord "CA" "2030-01-01", mkRecord "NY" "2030-01-01"] "ca"
    ⟨2025, 1, 1⟩ (by decide)).1

/-! ### Claim C8 -/

theorem sumCounts_bumpState (m : List (String × Nat)) (s : String) :
    sumCounts (bumpState m s) = sumCounts m + 1 := by
  induction m with
  | nil => rfl
  | cons kv rest ih =>
    obtain ⟨k, v⟩ := kv
    by_cases h : k = s
    · simp [bumpState, h, sumCounts]
      omega
    · simp only [bumpState, if_neg h, sumCounts, List.map_cons, List.sum_cons] at ih ⊢
      omega

theorem sumCounts_foldl_bumpState (data : List Record) (m : List (String × Nat)) :
    sumCounts (data.foldl (fun acc r => bumpState acc r.state) m) = sumCounts m + data.length := by
  induction data generalizing m with
  | nil => simp
  | cons r rs ih =>
    simp only [List.foldl_cons, List.length_cons, ih, sumCounts_bumpState]
    omega

/-- Claim C8: the per-state counts computed by the stats aggregation sum to
the total number of records; every record bumps exactly one key of the
state-count mapping. -/
theorem C8_state_counts_sum (data : List Record) :
    sumCounts (by_state data) = data.length := by
  have h := sumCounts_foldl_bumpState data []
  simpa [by_state, sumCounts] using h

/-! ### Claim C2 -/

/-- Environment for the C2 counterexample: the clock at 0, a 300-second
timeout, a configured connector whose fetch returns one record. -/
def envC2 : Env := ⟨0, 300, true, some [mkRecord "CA" "2030-01-01"], none⟩

/-- Cache state for the C2 counterexample: an entry holding the EMPTY record
set, stamped at time 0 (so well within the timeout window at time 0). -/
def stC2 : CacheState := ⟨some [], some 0⟩

/-- Counterexample to claim C2 as stated: with an entry holding the empty
record set and a timestamp inside the timeout window, `get(false)` does NOT
serve the cache — Python truthiness of `cached_data` treats the empty list
as "no entry" — so I/O happens and the returned set differs from the cached
one.  The claim's "regardless of the contents of the cached record set"
fails at the empty record set. -/
theorem C2_cache_hit_cex :
    envC2.now - 0 < envC2.cache_timeout ∧
    (get_license_data envC2 false stC2).ioOccurred = true ∧
    (get_license_data envC2 false stC2).result ≠ [] := by
  refine ⟨by decide, ?_, ?_⟩ <;> decide

/-- Claim C2 amended: for every cache state holding a NON-EMPTY entry, two
calls to `get(false)` within the timeout window of the entry's timestamp,
with no intervening force-refresh, both return the cached record set
unchanged, leave the cache state unchanged, and perform no I/O. -/
theorem C2_cache_hit (env1 env2 : Env) (l : List Record) (ts : Int)
    (hl : l ≠ [])
    (h1 : env1.now - ts < env1.cache_timeout)
    (h2 : env2.now - ts < env2.cache_timeout) :
    get_license_data env1 false ⟨some l, some ts⟩ =
      ⟨l, ⟨some l, some ts⟩, false, false⟩ ∧
    get_license_data env2 false ⟨some l, some ts⟩ =
      ⟨l, ⟨some l, some ts⟩, false, false⟩ := by
  have key : ∀ env : Env, env.now - ts < env.cache_timeout →
      get_license_data env false ⟨some l, some ts⟩ =
        ⟨l, ⟨some l, some ts⟩, false, false⟩ := by
    intro env h
    have hfresh : cacheFresh env ⟨some l, some ts⟩ = true := by
      simp [cacheFresh, List.isEmpty_iff, hl, h]
    unfold get_license_data
    rw [Bool.not_false, Bool.true_and, hfresh, if_pos rfl]
    rfl
  exact ⟨key env1 h1, key env2 h2⟩

/-- Witness for the amended C2: two calls ten and twenty seconds after the
fetch, with a 300-second timeout. -/
theorem C2_cache_hit_witness :
    get_license_data ⟨10, 300, false, none, none⟩ false
        ⟨some [mkRecord "CA" "2030-01-01"], some 0⟩ =
      ⟨[mkRecord "CA" "2030-01-01"], ⟨some [mkRecord "CA" "2030-01-01"], some 0⟩, false, false⟩ ∧
    get_license_data ⟨20, 300, false, none, none⟩ false
        ⟨some [mkRecord "CA" "2030-01-01"], some 0⟩ =
      ⟨[mkRecord "CA" "2030-01-01"], ⟨some [mkRecord "CA" "2030-01-01"], some 0⟩, false, false⟩ :=
  C2_cache_hit ⟨10, 300, false, none, none⟩ ⟨20, 300, false, none, none⟩
    [mkRecord "CA" "2030-01-01"] 0 (by decide) (by decide) (by decide)

/-! ### Claim C3 -/

/-- Raw fetch result for the C3 counterexample: a header row, then an empty
row, then one populated row. -/
def rowsC3 : List (List String) := [["#", "First"], [], ["1", "Ann"]]

/-- Counterexample to claim C3 as stated: with an empty row among the data
rows, the single mapped record carries identifier 2 (its position among the
data rows plus one), not the dense sequence 1..N — the enumeration index
advances across skipped empty rows. -/
theorem C3_dense_ids_cex :
    (GoogleSheetsConnector.get_license_data rowsC3).map Record.id = [2] ∧
    (GoogleSheetsConnector.get_license_data rowsC3).map Record.id ≠
      List.range' 1 (GoogleSheetsConnector.get_license_data rowsC3).length := by
  constructor <;> decide

theorem map_id_filterMap_enumFrom (n : Nat) (rows : List (List String))
    (h : ∀ r ∈ rows, r ≠ []) :
    ((rows.enumFrom n).filterMap fun p =>
        if p.2.isEmpty then none else some (GoogleSheetsConnector.mapRow p.1 p.2)).map Record.id
      = List.range' (n + 1) rows.length := by
  induction rows generalizing n with
  | nil => rfl
  | cons r rs ih =>
    have hr : r.isEmpty = false := by
      simp [List.isEmpty_iff]
      exact h r (by simp)
    have hrest : ∀ q ∈ rs, q ≠ [] := fun q hq => h q (List.mem_cons_of_mem r hq)
    simp only [List.enumFrom, List.filterMap_cons, hr, Bool.false_eq_true, if_false,
      List.map_cons, ih (n + 1) hrest, List.length_cons, List.range'_succ]
    rfl

/-- Claim C3 amended: identifiers equal one plus the record's position among
the data rows (header excluded); when NO data row is empty, they form the
dense sequence 1..N in output order.  An empty data row advances the
position and leaves a gap. -/
theorem C3_dense_ids (header : List String) (rows : List (List String))
    (h : ∀ r ∈ rows, r ≠ []) :
    (GoogleSheetsConnector.get_license_data (header :: rows)).map Record.id =
      List.range' 1 rows.length := by
  have key := map_id_filterMap_enumFrom 0 rows h
  simpa [GoogleSheetsConnector.get_license_data, List.enum] using key

/-- Witness for the amended C3: two nonempty data rows yield identifiers
[1, 2]. -/
theorem C3_dense_ids_witness :
    (GoogleSheetsConnector.get_license_data [["#", "First"], ["1", "Ann"], ["2", "Bo"]]).map
        Record.id = List.range' 1 2 :=
  C3_dense_ids ["#", "First"] [["1", "Ann"], ["2", "Bo"]] (by decide)

/-! ### Claim C4 -/

theorem fallbackLoad_result_irrel (env : Env) (s : CacheState) (b : Bool) :
    (fallbackLoad env s b).result = (fallbackLoad env ⟨none, none⟩ b).result := by
  cases h : env.sample_data <;> simp [fallbackLoad, h]

theorem fallbackLoad_fetchAttempted (env : Env) (s : CacheState) (b : Bool) :
    (fallbackLoad env s b).fetchAttempted = b := by
  cases h : env.sample_data <;> simp [fallbackLoad, h]

/-- With `force_refresh` true the cache-validity check is skipped whatever
the stored entry is. -/
theorem get_license_data_force (env : Env) (s : CacheState) :
    get_license_data env true s =
      (if env.sheets_configured then
        match env.fetch_result with
        | some licenses =>
          if licenses.isEmpty then fallbackLoad env s true
          else ⟨licenses, ⟨some licenses, some env.now⟩, true, true⟩
        | none => fallbackLoad env s true
      else fallbackLoad env s false) := by
  unfold get_license_data
  rw [Bool.not_true, Bool.false_and, if_neg (by simp)]

/-- Environment for the C4 counterexample: connector configured, the fetch
raises, and the fallback file is missing. -/
def envC4 : Env := ⟨0, 300, true, none, none⟩

/-- Cache state for the C4 counterexample: a fresh non-empty entry. -/
def stC4 : CacheState := ⟨some [mkRecord "CA" "2030-01-01"], some 0⟩

/-- Counterexample to claim C4 as stated: `get_license_data` itself never
clears the cache globals; when the fetch raises and the fallback file is
missing, a `get(true)` call leaves the previous entry in place, and a
subsequent `get(false)` within the window still serves it with no I/O.  The
entry was therefore not "unconditionally invalidated" by `get(true)` (the
clearing is done by the `/api/refresh` handler before it calls `get`). -/
theorem C4_force_refresh_cex :
    (get_license_data envC4 true stC4).state = stC4 ∧
    stC4.cached_data ≠ none ∧
    (get_license_data envC4 false (get_license_data envC4 true stC4).state).result =
      [mkRecord "CA" "2030-01-01"] ∧
    (get_license_data envC4 false (get_license_data envC4 true stC4).state).ioOccurred = false := by
  refine ⟨?_, ?_, ?_, ?_⟩ <;> decide

/-- Claim C4 amended: `get(true)` never reads the cache entry — its returned
record set equals the one computed from an invalidated (empty) cache, and a
Sheets fetch is attempted exactly when the connector is configured,
regardless of the entry's timestamp; the `/api/refresh` handler clears the
entry before calling `get(true)`, so the call it makes is literally the
invalidated-cache call; but `get(true)` itself leaves the stored entry in
place when both fetch and fallback fail. -/
theorem C4_force_refresh (env : Env) (st : CacheState) :
    (get_license_data env true st).result = (get_license_data env true ⟨none, none⟩).result ∧
    (get_license_data env true st).fetchAttempted = env.sheets_configured ∧
    refresh_data env st = get_license_data env true ⟨none, none⟩ := by
  have hres : ∀ b, (fallbackLoad env st b).result = (fallbackLoad env ⟨none, none⟩ b).result :=
    fun b => fallbackLoad_result_irrel env st b
  refine ⟨?_, ?_, rfl⟩
  · rw [get_license_data_force env st, get_license_data_force env ⟨none, none⟩]
    cases hc : env.sheets_configured
    · simpa using hres false
    · cases hf : env.fetch_result
      · simpa using hres true
      · rename_i licenses
        cases hemp : licenses.isEmpty
        · have hne : licenses ≠ [] := by simp_all
          simp [hne]
        · have hnil : licenses = [] := by simp_all
          simpa [hnil] using hres true
  · rw [get_license_data_force env st]
    cases hc : env.sheets_configured
    · simpa using fallbackLoad_fetchAttempted env st false
    · cases hf : env.fetch_result
      · simpa using fallbackLoad_fetchAttempted env st true
      · rename_i licenses
        cases hemp : licenses.isEmpty
        · have hne : licenses ≠ [] := by simp_all
          simp [hne]
        · have hnil : licenses = [] := by simp_all
          simpa [hnil] using fallbackLoad_fetchAttempted env st true
